import Mathlib

/-!
# Verification of the `nuke` arena allocation library

Shallow embedding of the Go sources of the `nuke` region-allocator package
(safe arena, monotonic arena, public entry points, POD introspection) and
proofs checking the natural-language specification against it.

Conventions of the embedding:
* Go machine integers (`int`, `uintptr`) are modelled as `Nat`; every value
  involved (sizes, offsets, addresses) is non-negative in the source and no
  operation relied upon here can overflow at the modelled inputs.
* `unsafe.Pointer` values are modelled as `Nat` addresses.  Addresses of
  freshly created backing buffers (`make([]byte, ...)`, `reflect.MakeSlice`)
  are chosen by the Go runtime, so the corresponding Lean functions take the
  fresh base address as an explicit argument.
* The bytes behind a slab pointer are modelled as a `List Nat` (`mem` field);
  allocation never writes them, reset zeroes a prefix, matching the source.
* Functions that can `panic` in Go return `Except String α`, carrying the
  panic message.
* The platform is 64-bit (the `reflect` sizes and alignments used in the
  sources are the linux/amd64 ones).
-/

mutual

/-- Go `reflect` types, covering the kinds the package inspects.
`structv` carries the struct's printed type name (what `%T` shows) and its
field list. -/
inductive GoType where
  | bool | int | int8 | int16 | int32 | int64
  | uint | uint8 | uint16 | uint32 | uint64 | uintptr
  | float32 | float64 | complex64 | complex128
  | array (n : Nat) (elem : GoType)
  | slice (elem : GoType)
  | string
  | interface
  | chan (elem : GoType)
  | func
  | map (key val : GoType)
  | ptr (elem : GoType)
  | rawPointer
  | structv (name : String) (fields : GoFields)
  deriving DecidableEq

inductive GoFields where
  | nil
  | cons (name : String) (ty : GoType) (rest : GoFields)
  deriving DecidableEq

end

/-- Round `n` up to a multiple of `a` (Go struct field/size padding). -/
def alignUp (n a : Nat) : Nat :=
  if a ≤ 1 then n else (n + a - 1) / a * a

mutual

/-- Go `reflect.Type.Size()` on linux/amd64. -/
def goSize : GoType → Nat
  | .bool | .int8 | .uint8 => 1
  | .int16 | .uint16 => 2
  | .int32 | .uint32 | .float32 => 4
  | .int | .int64 | .uint | .uint64 | .uintptr | .float64 => 8
  | .complex64 => 8
  | .complex128 => 16
  | .array n e => n * goSize e
  | .slice _ => 24
  | .string => 16
  | .interface => 16
  | .chan _ | .func | .map _ _ | .ptr _ | .rawPointer => 8
  | .structv _ fs => alignUp (goFieldsSize fs 0) (goFieldsAlign fs)

/-- Lay struct fields out sequentially, padding each to its alignment;
returns the offset after the last field. -/
def goFieldsSize : GoFields → Nat → Nat
  | .nil, off => off
  | .cons _ ty rest, off => goFieldsSize rest (alignUp off (goAlign ty) + goSize ty)

/-- Go `reflect.Type.Align()` on linux/amd64. -/
def goAlign : GoType → Nat
  | .bool | .int8 | .uint8 => 1
  | .int16 | .uint16 => 2
  | .int32 | .uint32 | .float32 | .complex64 => 4
  | .int | .int64 | .uint | .uint64 | .uintptr | .float64 | .complex128 => 8
  | .array _ e => goAlign e
  | .slice _ | .string | .interface => 8
  | .chan _ | .func | .map _ _ | .ptr _ | .rawPointer => 8
  | .structv _ fs => goFieldsAlign fs

/-- Alignment of a struct: max of the field alignments (1 when empty). -/
def goFieldsAlign : GoFields → Nat
  | .nil => 1
  | .cons _ ty rest => max (goAlign ty) (goFieldsAlign rest)

end

/-- Go `isPOD` (pointer_detection file): fast check for whether a type is
pointer-free, recursing into array element types.  (An earlier iteration of
the package, in the safe-arena file, lacked the `Array` case; the two agree
on every non-array kind, which is all the arena claims exercise.) -/
def isPOD : GoType → Bool
  | .bool | .int | .int8 | .int16 | .int32 | .int64
  | .uint | .uint8 | .uint16 | .uint32 | .uint64 | .uintptr
  | .float32 | .float64 | .complex64 | .complex128 => true
  | .array _ e => isPOD e
  | _ => false

/-! ## Safe arena (complete iteration of the safe-arena source file) -/

/-- Zero the first `k` entries of a byte list (the `for i := range b` loop of
`safeSlab.reset` / `zeroOutBuffer`, over a `k`-byte window). -/
def zeroFirstBytes : Nat → List Nat → List Nat
  | 0, l => l
  | _ + 1, [] => []
  | k + 1, _ :: t => 0 :: zeroFirstBytes k t

/-- Go `safeSlab`: a fixed byte buffer with a bump cursor.  `base` is the
address of byte 0 (`buf` in the source), `mem` the bytes behind it. -/
structure safeSlab where
  base : Nat
  size : Nat
  offset : Nat
  mem : List Nat
  deriving DecidableEq, Repr, Inhabited

/-- Go `makeSafeSlab(ty, slots)`: a fresh zeroed buffer of `slots` elements of
`ty`; the runtime-chosen buffer address is passed in as `base`. -/
def makeSafeSlab (ty : GoType) (slots : Nat) (base : Nat) : safeSlab :=
  { base := base
    size := slots * goSize ty
    offset := 0
    mem := List.replicate (slots * goSize ty) 0 }

/-- Go `safeSlab.getAlwaysAligned`: trivial bump, for typed slabs. -/
def safeSlab.getAlwaysAligned (s : safeSlab) (size : Nat) : Option Nat × safeSlab :=
  if s.offset + size > s.size then (none, s)
  else (some (s.base + s.offset), { s with offset := s.offset + size })

/-- Go `safeSlab.getWithAlignment`: bump that pads so that the *end* of the
block (`buf + offset + size`) lands on an alignment boundary. -/
def safeSlab.getWithAlignment (s : safeSlab) (size align : Nat) : Option Nat × safeSlab :=
  let newOffset := s.offset + size
  let realign : Nat :=
    if align ≠ 1 then
      let misalignment := (s.base + newOffset) % align
      if misalignment ≠ 0 then align - misalignment else 0
    else 0
  let newOffset := newOffset + realign
  if newOffset > s.size then (none, s)
  else (some (s.base + s.offset + realign), { s with offset := newOffset })

/-- Go `safeSlab.reset`: zero bytes `[0, offset)`, return the used byte count,
rewind the cursor. -/
def safeSlab.reset (s : safeSlab) : Nat × safeSlab :=
  (s.offset, { s with offset := 0, mem := zeroFirstBytes s.offset s.mem })

/-- Go `safeSlab.seemsFull`: more than 3/4 used (Go integer division). -/
def safeSlab.seemsFull (s : safeSlab) : Bool :=
  s.offset > s.size * 3 / 4

/-- Go `safeSlabGroup`: slabs plus bookkeeping. -/
structure safeSlabGroup where
  slabs : List safeSlab
  totalBytes : Nat
  firstWithFreeSpace : Nat
  deriving DecidableEq, Repr

/-- Go `makeSafeSlabGroup(ty, initialSlots)` (used for typed groups). -/
def makeSafeSlabGroup (ty : GoType) (initialSlots : Nat) (base : Nat) : safeSlabGroup :=
  let firstSlab := makeSafeSlab ty initialSlots base
  { slabs := [firstSlab]
    totalBytes := firstSlab.size
    firstWithFreeSpace := 0 }

/-- Swap list entries `i` and `j` (the Go parallel assignment
`sg.slabs[f], sg.slabs[i] = sg.slabs[i], sg.slabs[f]`). -/
def listSwap (l : List safeSlab) (i j : Nat) : List safeSlab :=
  match l[i]?, l[j]? with
  | some a, some b => (l.set i b).set j a
  | _, _ => l

/-- Loop body of `safeSlabGroup.getWithAlignment`: try slabs from index `i`
upward, swapping slabs that now seem full down to `firstWithFreeSpace` and
bumping that index.  `fuel` starts at `slabs.length - i`; the slab count
never changes inside the loop, so the fuel exactly covers the Go loop. -/
def safeSlabGroup.getWithAlignmentAux (size align : Nat) :
    Nat → Nat → safeSlabGroup → Option Nat × safeSlabGroup
  | _, 0, sg => (none, sg)
  | i, fuel + 1, sg =>
    match sg.slabs[i]? with
    | none => (none, sg)
    | some slab =>
      let (ptr, slab) := slab.getWithAlignment size align
      let sg := { sg with slabs := sg.slabs.set i slab }
      match ptr with
      | some p => (some p, sg)
      | none =>
        let sg :=
          if slab.seemsFull then
            { sg with
              slabs := listSwap sg.slabs sg.firstWithFreeSpace i
              firstWithFreeSpace := sg.firstWithFreeSpace + 1 }
          else sg
        safeSlabGroup.getWithAlignmentAux size align (i + 1) fuel sg

/-- Go `safeSlabGroup.getWithAlignment`. -/
def safeSlabGroup.getWithAlignment (sg : safeSlabGroup) (size align : Nat) :
    Option Nat × safeSlabGroup :=
  safeSlabGroup.getWithAlignmentAux size align sg.firstWithFreeSpace
    (sg.slabs.length - sg.firstWithFreeSpace) sg

/-- Loop body of `safeSlabGroup.getAlwaysAligned` (same search and swap
policy, trivial bump). -/
def safeSlabGroup.getAlwaysAlignedAux (size : Nat) :
    Nat → Nat → safeSlabGroup → Option Nat × safeSlabGroup
  | _, 0, sg => (none, sg)
  | i, fuel + 1, sg =>
    match sg.slabs[i]? with
    | none => (none, sg)
    | some slab =>
      let (ptr, slab) := slab.getAlwaysAligned size
      let sg := { sg with slabs := sg.slabs.set i slab }
      match ptr with
      | some p => (some p, sg)
      | none =>
        let sg :=
          if slab.seemsFull then
            { sg with
              slabs := listSwap sg.slabs sg.firstWithFreeSpace i
              firstWithFreeSpace := sg.firstWithFreeSpace + 1 }
          else sg
        safeSlabGroup.getAlwaysAlignedAux size (i + 1) fuel sg

/-- Go `safeSlabGroup.getAlwaysAligned`. -/
def safeSlabGroup.getAlwaysAligned (sg : safeSlabGroup) (size : Nat) :
    Option Nat × safeSlabGroup :=
  safeSlabGroup.getAlwaysAlignedAux size sg.firstWithFreeSpace
    (sg.slabs.length - sg.firstWithFreeSpace) sg

/-- Go `safeSlabGroup.grow(ty, minNewSlots)`: append a slab of
`max(minNewSlots, totalBytes / size(ty))` slots. -/
def safeSlabGroup.grow (sg : safeSlabGroup) (ty : GoType) (minNewSlots : Nat)
    (newBase : Nat) : safeSlabGroup :=
  let currentTotalSlots := sg.totalBytes / goSize ty
  let newSlots := if currentTotalSlots > minNewSlots then currentTotalSlots else minNewSlots
  { sg with
    slabs := sg.slabs ++ [makeSafeSlab ty newSlots newBase]
    totalBytes := sg.totalBytes + newSlots * goSize ty }

/-- Go `safeSlabGroup.getPOD(ty, n)`: attempt an aligned allocation, growing
by at least `(n+1) * size` byte slots on failure and retrying; a second
failure panics. -/
def safeSlabGroup.getPOD (sg : safeSlabGroup) (ty : GoType) (n : Nat)
    (growBase : Nat) : Except String (Nat × safeSlabGroup) :=
  let size := goSize ty
  let align := goAlign ty
  match sg.getWithAlignment size align with
  | (some p, sg) => Except.ok (p, sg)
  | (none, sg) =>
    let sg := sg.grow GoType.uint8 ((n + 1) * size) growBase
    match sg.getWithAlignment size align with
    | (some p, sg) => Except.ok (p, sg)
    | (none, _) => Except.error "slab allocation failed!"

/-- Go `safeSlabGroup.getTyped(ty, n)`: aligned bump of `n * size(ty)` bytes,
growing by at least `n` slots on failure and retrying. -/
def safeSlabGroup.getTyped (sg : safeSlabGroup) (ty : GoType) (n : Nat)
    (growBase : Nat) : Except String (Nat × safeSlabGroup) :=
  match sg.getAlwaysAligned (goSize ty * n) with
  | (some p, sg) => Except.ok (p, sg)
  | (none, sg) =>
    let sg := sg.grow ty n growBase
    match sg.getAlwaysAligned (goSize ty * n) with
    | (some p, sg) => Except.ok (p, sg)
    | (none, _) => Except.error "slab allocation failed!"

/-- Reset every slab, accumulating the high-water byte count. -/
def resetSlabs : List safeSlab → Nat × List safeSlab
  | [] => (0, [])
  | s :: rest => ((s.reset).1 + (resetSlabs rest).1, (s.reset).2 :: (resetSlabs rest).2)

/-- Go `safeSlabGroup.reset`: reset all slabs; if more than one slab exists and
the high-water mark is under a quarter of total bytes, drop the tail slab. -/
def safeSlabGroup.reset (sg : safeSlabGroup) : safeSlabGroup :=
  let highWaterMarkBytes := (resetSlabs sg.slabs).1
  let sg := { sg with slabs := (resetSlabs sg.slabs).2 }
  if sg.slabs.length > 1 ∧ highWaterMarkBytes * 4 < sg.totalBytes then
    { sg with
      totalBytes := sg.totalBytes - ((sg.slabs.getLast?.getD default).size)
      slabs := sg.slabs.dropLast }
  else sg

/-- Go `Options` for the safe arena constructor. -/
structure Options where
  InitialBytes : Nat
  InitialTypedSlots : Nat
  deriving DecidableEq, Repr

/-- Go `safeArena`: the POD slab group, the per-type group map, and the slot
count for new typed groups.  The Go field `typedSlabs` is a `map` that the
constructor never initializes, so it can be nil; `none` models the nil map
and `some m` an initialized map (as an association list). -/
structure safeArena where
  podSlabs : safeSlabGroup
  typedSlabs : Option (List (GoType × safeSlabGroup))
  initialTypedSlots : Nat
  deriving DecidableEq

/-- Go `MakeSafeArenaWithOptions`: one POD slab of `InitialBytes` bytes.  The
composite literal leaves `typedSlabs` nil and the POD group's `totalBytes`
and `firstWithFreeSpace` at their zero values, exactly as the source does. -/
def MakeSafeArenaWithOptions (options : Options) (podBase : Nat) : safeArena :=
  { podSlabs :=
      { slabs := [makeSafeSlab GoType.uint8 options.InitialBytes podBase]
        totalBytes := 0
        firstWithFreeSpace := 0 }
    typedSlabs := none
    initialTypedSlots := options.InitialTypedSlots }

/-- Go `MakeSafeArena`: default options (4096 bytes, 64 slots). -/
def MakeSafeArena (podBase : Nat) : safeArena :=
  MakeSafeArenaWithOptions { InitialBytes := 4096, InitialTypedSlots := 64 } podBase

/-- Association-list lookup standing in for the Go map read
`sa.typedSlabs[ty]` (type identity is structural identity here). -/
def typedLookup (ty : GoType) : List (GoType × safeSlabGroup) → Option safeSlabGroup
  | [] => none
  | (k, g) :: rest => if k = ty then some g else typedLookup ty rest

/-- Association-list store standing in for the Go map write
`sa.typedSlabs[ty] = group` (and, because map values are pointers to groups,
also for mutation of the group through that pointer). -/
def typedStore (ty : GoType) (g : safeSlabGroup) :
    List (GoType × safeSlabGroup) → List (GoType × safeSlabGroup)
  | [] => [(ty, g)]
  | (k, g') :: rest =>
    if k = ty then (k, g) :: rest else (k, g') :: typedStore ty g rest

/-- Go `safeArena.getTyped(ty, n)`: POD types go to the POD group; other types
go to the group keyed by the type, created on first use.  On the source as
written the very first non-POD allocation reaches the map write
`sa.typedSlabs[ty] = &newGroup` with `typedSlabs` still nil, which is a Go
runtime panic; the nil-map case returns that panic's message.
`groupBase`/`growBase` are the runtime-chosen addresses of any slab this
call creates. -/
def safeArena.getTyped (sa : safeArena) (ty : GoType) (n : Nat)
    (groupBase growBase : Nat) : Except String (Nat × safeArena) :=
  if isPOD ty then
    match sa.podSlabs.getPOD ty n growBase with
    | Except.ok (p, g) => Except.ok (p, { sa with podSlabs := g })
    | Except.error e => Except.error e
  else
    match sa.typedSlabs with
    | none =>
      -- the nil-map read yields no group, a fresh group is built, and the
      -- insertion into the nil map panics
      Except.error "assignment to entry in nil map"
    | some m =>
      match typedLookup ty m with
      | some group =>
        match group.getTyped ty n growBase with
        | Except.ok (p, g) =>
          Except.ok (p, { sa with typedSlabs := some (typedStore ty g m) })
        | Except.error e => Except.error e
      | none =>
        let newGroup := makeSafeSlabGroup ty sa.initialTypedSlots groupBase
        let m := typedStore ty newGroup m
        match newGroup.getTyped ty n growBase with
        | Except.ok (p, g) =>
          Except.ok (p, { sa with typedSlabs := some (typedStore ty g m) })
        | Except.error e => Except.error e

/-- Go `safeArena.getPOD(ty, n)`: delegate unconditionally to the POD group. -/
def safeArena.getPOD (sa : safeArena) (ty : GoType) (n : Nat)
    (growBase : Nat) : Except String (Nat × safeArena) :=
  match sa.podSlabs.getPOD ty n growBase with
  | Except.ok (p, g) => Except.ok (p, { sa with podSlabs := g })
  | Except.error e => Except.error e

/-- Go `safeArena.Reset`: reset the POD group and every typed group. -/
def safeArena.Reset (sa : safeArena) : safeArena :=
  { sa with
    podSlabs := sa.podSlabs.reset
    typedSlabs := sa.typedSlabs.map (List.map fun (k, g) => (k, g.reset)) }

/-! ## Monotonic arena -/

/-- A Go pointer as observed by callers: nil, a concrete address inside
arena-owned memory, or a fresh host (garbage-collected heap) allocation. -/
inductive GoPtr where
  | null
  | mem (addr : Nat)
  | heap
  deriving DecidableEq, Repr

/-- Go `monotonicBuffer`: lazily materialized fixed byte buffer with a bump
cursor.  `ptr = none` models the nil backing pointer; `mem` the bytes behind
it (empty while unmaterialized). -/
structure monotonicBuffer where
  ptr : Option Nat
  offset : Nat
  size : Nat
  mem : List Nat
  deriving DecidableEq, Repr

/-- Go `newMonotonicBuffer(size)`: everything but the size is zero/nil. -/
def newMonotonicBuffer (size : Nat) : monotonicBuffer :=
  { ptr := none, offset := 0, size := size, mem := [] }

/-- Go `monotonicBuffer.availableBytes`. -/
def monotonicBuffer.availableBytes (s : monotonicBuffer) : Nat :=
  s.size - s.offset

/-- Go `monotonicBuffer.alloc(size, alignment)`: materialize the buffer if
needed (at the runtime-chosen address `freshBase`), pad so the *start* of
the region is aligned, fail without moving the cursor if the padded request
does not fit. -/
def monotonicBuffer.alloc (s : monotonicBuffer) (size alignment : Nat)
    (freshBase : Nat) : Option Nat × monotonicBuffer :=
  let s :=
    if s.ptr.isNone then
      { s with ptr := some freshBase, mem := List.replicate s.size 0 }
    else s
  let base := s.ptr.getD 0
  let realign : Nat :=
    if alignment ≠ 1 then
      let misalignment := (base + s.offset) % alignment
      if misalignment ≠ 0 then alignment - misalignment else 0
    else 0
  let allocSize := size + realign
  if s.availableBytes < allocSize then (none, s)
  else (some (base + s.offset + realign), { s with offset := s.offset + allocSize })

/-- Go `monotonicBuffer.zeroOutBuffer`: zero the first `offset` bytes. -/
def monotonicBuffer.zeroOutBuffer (s : monotonicBuffer) : monotonicBuffer :=
  { s with mem := zeroFirstBytes s.offset s.mem }

/-- Go `monotonicBuffer.reset(release)`: return immediately when the cursor is
at 0; otherwise rewind the cursor and then either drop the backing storage
or call `zeroOutBuffer` — which at that point sees the already-rewound
cursor.  (Mirrors the source statement order exactly.) -/
def monotonicBuffer.reset (s : monotonicBuffer) (release : Bool) : monotonicBuffer :=
  if s.offset = 0 then s
  else
    let s := { s with offset := 0 }
    if release then { s with ptr := none, mem := [] }
    else s.zeroOutBuffer

/-- Go `monotonicArena`: fixed list of buffers plus the release flag. -/
structure monotonicArena where
  buffers : List monotonicBuffer
  releaseWhenReset : Bool
  deriving DecidableEq, Repr

/-- Go `NewMonotonicArena(bufferSize, bufferCount)`. -/
def NewMonotonicArena (bufferSize bufferCount : Nat) : monotonicArena :=
  { buffers := List.replicate bufferCount (newMonotonicBuffer bufferSize)
    releaseWhenReset := false }

/-- Go `NewMonotonicArenaWithDiscard(bufferSize, bufferCount)`. -/
def NewMonotonicArenaWithDiscard (bufferSize bufferCount : Nat) : monotonicArena :=
  { buffers := List.replicate bufferCount (newMonotonicBuffer bufferSize)
    releaseWhenReset := true }

/-- Linear scan of `monotonicArena.getPOD`; each buffer's `alloc` runs (and
may materialize storage) even when it fails, so failed buffers are written
back updated.  `freshBases` supplies one runtime-chosen address per buffer. -/
def monoGetPODLoop (size align : Nat) :
    List monotonicBuffer → List Nat → Option Nat × List monotonicBuffer
  | [], _ => (none, [])
  | b :: rest, freshBases =>
    let (p, b) := b.alloc size align (freshBases.headD 0)
    match p with
    | some ptr => (some ptr, b :: rest)
    | none =>
      let (r, rest) := monoGetPODLoop size align rest freshBases.tail
      (r, b :: rest)

/-- Go `monotonicArena.getPOD(size, align)`: first buffer that can service the
request wins; nil when none can. -/
def monotonicArena.getPOD (a : monotonicArena) (size align : Nat)
    (freshBases : List Nat) : Option Nat × monotonicArena :=
  let (p, buffers) := monoGetPODLoop size align a.buffers freshBases
  (p, { a with buffers := buffers })

/-- Go `monotonicArena.getTyped(ty, n)`: POD types go through `getPOD` (and can
come back nil); non-POD data is allocated outside the arena via
`reflect.MakeSlice`, i.e. on the host heap. -/
def monotonicArena.getTyped (a : monotonicArena) (ty : GoType) (n : Nat)
    (freshBases : List Nat) : GoPtr × monotonicArena :=
  if isPOD ty then
    match a.getPOD (goSize ty * n) (goAlign ty) freshBases with
    | (some p, a) => (GoPtr.mem p, a)
    | (none, a) => (GoPtr.null, a)
  else
    (GoPtr.heap, a)

/-- Go `monotonicArena.Reset`: reset every buffer with the release flag. -/
def monotonicArena.Reset (a : monotonicArena) : monotonicArena :=
  { a with buffers := a.buffers.map (·.reset a.releaseWhenReset) }

/-! ## Public entry points (`New`, `Make`, `MakePOD`), instantiated at the
two concrete arena implementations they dispatch to. -/

/-- Go `New[T](arena)` dispatched to a monotonic arena: when the arena handle
is non-nil the result of `arena.getTyped(T, 1)` is returned as-is (a nil
inner pointer stays nil); when the handle is nil, `new(T)` allocates on the
host heap. -/
def NewMono (arena : Option monotonicArena) (ty : GoType)
    (freshBases : List Nat) : GoPtr × Option monotonicArena :=
  match arena with
  | some a =>
    let (p, a) := a.getTyped ty 1 freshBases
    (p, some a)
  | none => (GoPtr.heap, none)

/-- A Go slice header: data pointer, length, capacity. -/
structure GoSlice where
  ptr : GoPtr
  len : Nat
  cap : Nat
  deriving DecidableEq, Repr

/-- Go `Make[T](arena, n, cap)` dispatched to a safe arena: requests
`getTyped(T, n)` — the *length*, not the capacity — and returns
`unsafe.Slice(ptr, cap)[:n]`, a view of `cap` elements.  With a nil arena
handle it falls back to `make([]T, n, cap)` on the host. -/
def Make (arena : Option safeArena) (ty : GoType) (n cap : Nat)
    (groupBase growBase : Nat) : Except String (GoSlice × Option safeArena) :=
  match arena with
  | some sa =>
    match sa.getTyped ty n groupBase growBase with
    | Except.ok (p, sa) =>
      Except.ok ({ ptr := GoPtr.mem p, len := n, cap := cap }, some sa)
    | Except.error e => Except.error e
  | none => Except.ok ({ ptr := GoPtr.heap, len := n, cap := cap }, none)

/-- Go `MakePOD[T](arena, n, cap)` dispatched to a safe arena: requests
`getPOD(sizeof T, alignof T, n)` and returns `unsafe.Slice(ptr, cap)[:n]`. -/
def MakePOD (arena : Option safeArena) (ty : GoType) (n cap : Nat)
    (growBase : Nat) : Except String (GoSlice × Option safeArena) :=
  match arena with
  | some sa =>
    match sa.getPOD ty n growBase with
    | Except.ok (p, sa) =>
      Except.ok ({ ptr := GoPtr.mem p, len := n, cap := cap }, some sa)
    | Except.error e => Except.error e
  | none => Except.ok ({ ptr := GoPtr.heap, len := n, cap := cap }, none)

/-! ## POD introspection (`AssertPlainOldData`) -/

/-- What `fmt.Sprintf("%T", reflect.Zero(ty).Interface())` prints: the Go
type's name.  For an interface type the zero value is a nil interface, which
`%T` renders as `<nil>`. -/
def typeFmtName : GoType → String
  | .bool => "bool"
  | .int => "int" | .int8 => "int8" | .int16 => "int16"
  | .int32 => "int32" | .int64 => "int64"
  | .uint => "uint" | .uint8 => "uint8" | .uint16 => "uint16"
  | .uint32 => "uint32" | .uint64 => "uint64" | .uintptr => "uintptr"
  | .float32 => "float32" | .float64 => "float64"
  | .complex64 => "complex64" | .complex128 => "complex128"
  | .array n e => "[" ++ toString n ++ "]" ++ typeFmtName e
  | .slice e => "[]" ++ typeFmtName e
  | .string => "string"
  | .interface => "<nil>"
  | .chan e => "chan " ++ typeFmtName e
  | .func => "func()"
  | .map k v => "map[" ++ typeFmtName k ++ "]" ++ typeFmtName v
  | .ptr e => "*" ++ typeFmtName e
  | .rawPointer => "unsafe.Pointer"
  | .structv name _ => name

mutual

/-- Go `assertPODImpl(ty)`: empty string when the type is pointer-free, else a
path-qualified description of the first pointer-bearing part.  Mirrors the
source: the `isPOD` fast path first, then the kind switch (pointerful leaf
kinds, array recursion with an `"array element "` prefix, struct field
iteration with a `'struct <T> field "<name>": '` prefix). -/
def assertPODImpl (ty : GoType) : String :=
  if isPOD ty then ""
  else
    match ty with
    | .slice _ | .string | .interface | .chan _ | .func
    | .map _ _ | .ptr _ | .rawPointer =>
      "type " ++ typeFmtName ty ++ " contains pointers"
    | .array _ e =>
      let problem := assertPODImpl e
      if problem ≠ "" then "array element " ++ problem else problem
    | .structv name fs => assertPODFields name fs
    | _ => ""

/-- The `reflect.VisibleFields` loop of `assertPODImpl`'s struct case:
return the prefixed problem of the first pointer-bearing field, or "". -/
def assertPODFields (structName : String) : GoFields → String
  | .nil => ""
  | .cons fieldName fieldTy rest =>
    let problem := assertPODImpl fieldTy
    if problem ≠ "" then
      "struct " ++ structName ++ " field \"" ++ fieldName ++ "\": " ++ problem
    else assertPODFields structName rest

end

/-- Go `AssertPlainOldData[T]()`: panic (here: `Except.error`) with the problem
description when `T` contains pointers, otherwise return normally. -/
def AssertPlainOldData (ty : GoType) : Except String Unit :=
  let problem := assertPODImpl ty
  if problem ≠ "" then Except.error problem else Except.ok ()

mutual

/-- Reference predicate, written from the claim and spec §4.6: a type
"contains a pointer-bearing reachable subfield" when any reachable leaf is
of a pointer-bearing kind (slices, strings, interfaces, channels, function
values, maps, pointers, raw pointers), recursing through array elements and
all struct fields.  Pointer-free primitives (including `uintptr`) do not. -/
def containsPointersSpec : GoType → Bool
  | .bool | .int | .int8 | .int16 | .int32 | .int64
  | .uint | .uint8 | .uint16 | .uint32 | .uint64 | .uintptr
  | .float32 | .float64 | .complex64 | .complex128 => false
  | .array _ e => containsPointersSpec e
  | .structv _ fs => fieldsContainPointersSpec fs
  | _ => true

/-- Struct-field disjunction for `containsPointersSpec`. -/
def fieldsContainPointersSpec : GoFields → Bool
  | .nil => false
  | .cons _ ty rest => containsPointersSpec ty || fieldsContainPointersSpec rest

end

/-! ## Concrete states used by the checks

Each fixture is either built by a public constructor or is the (verified)
result of running the embedded operations from one. -/

/-- POD slab group holding one 16-byte slab at address 0. -/
def podGroup16 : safeSlabGroup :=
  { slabs := [makeSafeSlab GoType.uint8 16 0], totalBytes := 16, firstWithFreeSpace := 0 }

/-- State of `podGroup16` after one 8-byte aligned bump. -/
def podGroup16a : safeSlabGroup :=
  { slabs := [{ base := 0, size := 16, offset := 8, mem := List.replicate 16 0 }],
    totalBytes := 16, firstWithFreeSpace := 0 }

/-- Fresh safe arena with a 64-byte POD slab. -/
def arena64 : safeArena :=
  MakeSafeArenaWithOptions { InitialBytes := 64, InitialTypedSlots := 64 } 0

/-- State of `arena64` after one 8-byte POD bump. -/
def arena64a : safeArena :=
  { podSlabs :=
      { slabs := [{ base := 0, size := 64, offset := 8, mem := List.replicate 64 0 }],
        totalBytes := 0, firstWithFreeSpace := 0 }
    typedSlabs := none
    initialTypedSlots := 64 }

/-- Fresh safe arena with an 8-byte POD slab. -/
def arena8 : safeArena :=
  MakeSafeArenaWithOptions { InitialBytes := 8, InitialTypedSlots := 64 } 0

/-- The POD slab group of `arena8`: note `totalBytes = 0`, as left by the
composite literal of the constructor. -/
def group8start : safeSlabGroup :=
  { slabs := [makeSafeSlab GoType.uint8 8 0], totalBytes := 0, firstWithFreeSpace := 0 }

/-- Group state after allocating one `uint64` from `group8start`. -/
def group8a : safeSlabGroup :=
  { slabs := [{ base := 0, size := 8, offset := 8, mem := List.replicate 8 0 }],
    totalBytes := 0, firstWithFreeSpace := 0 }

/-- Group state after a second `uint64` allocation: the full first slab was
moved out of the live range (`firstWithFreeSpace = 1`) and a fresh 16-byte
slab at base 16 was appended and used. -/
def group8b : safeSlabGroup :=
  { slabs := [{ base := 0, size := 8, offset := 8, mem := List.replicate 8 0 },
              { base := 16, size := 16, offset := 8, mem := List.replicate 16 0 }],
    totalBytes := 16, firstWithFreeSpace := 1 }

/-- Group state after resetting `group8b`: both cursors rewound, no slab
dropped, and `firstWithFreeSpace` still 1. -/
def group8r : safeSlabGroup :=
  { slabs := [{ base := 0, size := 8, offset := 0, mem := List.replicate 8 0 },
              { base := 16, size := 16, offset := 0, mem := List.replicate 16 0 }],
    totalBytes := 16, firstWithFreeSpace := 1 }

/-- Arena whose POD group is `group8a` (the `arena8` trace, first step). -/
def arena8a : safeArena :=
  { podSlabs := group8a, typedSlabs := none, initialTypedSlots := 64 }

/-- Arena whose POD group is `group8b` (the `arena8` trace, second step). -/
def arena8b : safeArena :=
  { podSlabs := group8b, typedSlabs := none, initialTypedSlots := 64 }

/-- Monotonic arena with a single 16-byte buffer (room for two 8-byte ints). -/
def mono16 : monotonicArena := NewMonotonicArena 16 1

/-- State of `mono16` after one `int` allocation (buffer materialized at 0). -/
def mono16a : monotonicArena :=
  { buffers := [{ ptr := some 0, offset := 8, size := 16, mem := List.replicate 16 0 }]
    releaseWhenReset := false }

/-- State of `mono16` after two `int` allocations: the buffer is full. -/
def mono16b : monotonicArena :=
  { buffers := [{ ptr := some 0, offset := 16, size := 16, mem := List.replicate 16 0 }]
    releaseWhenReset := false }

/-- A monotonic buffer whose first three bytes were handed out and written
with the (nonzero) value 7 by the caller. -/
def buf3used : monotonicBuffer :=
  { ptr := some 0, offset := 3, size := 8, mem := [7, 7, 7, 0, 0, 0, 0, 0] }

/-- A safe slab whose first three bytes were handed out and written with the
(nonzero) value 7 by the caller. -/
def slab3used : safeSlab :=
  { base := 0, size := 8, offset := 3, mem := [7, 7, 7, 0, 0, 0, 0, 0] }

/-- An empty materialized monotonic buffer whose base address is 8. -/
def bufAt8 : monotonicBuffer :=
  { ptr := some 8, offset := 0, size := 16, mem := List.replicate 16 0 }

/-- An empty safe slab whose base address is 5 (byte buffers need not be
aligned to the request). -/
def slabAt5 : safeSlab :=
  { base := 5, size := 16, offset := 0, mem := List.replicate 16 0 }

/-! ## Supporting lemmas -/

theorem append_ne_empty_left (a b : String) (h : a.length ≠ 0) : a ++ b ≠ "" := by
  intro e
  have hl := congrArg String.length e
  rw [String.length_append] at hl
  have h0 : ("" : String).length = 0 := rfl
  rw [h0] at hl
  omega

theorem append_ne_empty_right (a b : String) (h : b.length ≠ 0) : a ++ b ≠ "" := by
  intro e
  have hl := congrArg String.length e
  rw [String.length_append] at hl
  have h0 : ("" : String).length = 0 := rfl
  rw [h0] at hl
  omega

theorem length_ne_zero_of_ne_empty : ∀ s : String, s ≠ "" → s.length ≠ 0
  | ⟨[]⟩, h => absurd rfl h
  | ⟨c :: cs⟩, _ => by
      show (c :: cs).length ≠ 0
      simp

/-- The message of a pointerful leaf kind is never the empty string. -/
theorem pointer_message_ne_empty (x : String) : x ++ " contains pointers" ≠ "" :=
  append_ne_empty_right _ _ (by decide)

/-- Types passing the fast `isPOD` check contain no pointers. -/
theorem isPOD_no_pointers : ∀ ty : GoType, isPOD ty = true → containsPointersSpec ty = false
  | .bool, _ | .int, _ | .int8, _ | .int16, _ | .int32, _ | .int64, _
  | .uint, _ | .uint8, _ | .uint16, _ | .uint32, _ | .uint64, _ | .uintptr, _
  | .float32, _ | .float64, _ | .complex64, _ | .complex128, _ => rfl
  | .array _ e, h => isPOD_no_pointers e h
  | .slice _, h | .string, h | .interface, h | .chan _, h | .func, h
  | .map _ _, h | .ptr _, h | .rawPointer, h | .structv _ _, h => nomatch h

mutual

/-- Go `assertPODImpl` returns the empty string exactly on pointer-free types. -/
theorem assertPODImpl_empty_iff :
    ∀ ty : GoType, (assertPODImpl ty = "" ↔ containsPointersSpec ty = false)
  | .bool | .int | .int8 | .int16 | .int32 | .int64
  | .uint | .uint8 | .uint16 | .uint32 | .uint64 | .uintptr
  | .float32 | .float64 | .complex64 | .complex128 => by
      simp [assertPODImpl, containsPointersSpec, isPOD]
  | .slice e => by
      constructor
      · intro h; exact absurd h (pointer_message_ne_empty _)
      · intro h; simp [containsPointersSpec] at h
  | .string => by
      constructor
      · intro h; exact absurd h (pointer_message_ne_empty _)
      · intro h; simp [containsPointersSpec] at h
  | .interface => by
      constructor
      · intro h; exact absurd h (pointer_message_ne_empty _)
      · intro h; simp [containsPointersSpec] at h
  | .chan e => by
      constructor
      · intro h; exact absurd h (pointer_message_ne_empty _)
      · intro h; simp [containsPointersSpec] at h
  | .func => by
      constructor
      · intro h; exact absurd h (pointer_message_ne_empty _)
      · intro h; simp [containsPointersSpec] at h
  | .map k v => by
      constructor
      · intro h; exact absurd h (pointer_message_ne_empty _)
      · intro h; simp [containsPointersSpec] at h
  | .ptr e => by
      constructor
      · intro h; exact absurd h (pointer_message_ne_empty _)
      · intro h; simp [containsPointersSpec] at h
  | .rawPointer => by
      constructor
      · intro h; exact absurd h (pointer_message_ne_empty _)
      · intro h; simp [containsPointersSpec] at h
  | .array n e => by
      have ih := assertPODImpl_empty_iff e
      by_cases hp : isPOD e
      · have hc := isPOD_no_pointers e hp
        simp [assertPODImpl, isPOD, hp, containsPointersSpec, hc]
      · simp only [assertPODImpl, isPOD, hp, Bool.false_eq_true, if_false,
          containsPointersSpec]
        by_cases he : assertPODImpl e = ""
        · simp [he, ih.mp he]
        · have hc : containsPointersSpec e = true := by
            rcases Bool.eq_false_or_eq_true (containsPointersSpec e) with h | h
            · exact h
            · exact absurd (ih.mpr h) he
          simp [he, hc]
          exact append_ne_empty_left _ _ (by decide)
  | .structv nm fs => by
      have ih := assertPODFields_empty_iff nm fs
      simpa [assertPODImpl, isPOD, containsPointersSpec] using ih

/-- Field-loop version of `assertPODImpl_empty_iff`. -/
theorem assertPODFields_empty_iff :
    ∀ (nm : String) (fs : GoFields),
      (assertPODFields nm fs = "" ↔ fieldsContainPointersSpec fs = false)
  | _, .nil => by simp [assertPODFields, fieldsContainPointersSpec]
  | nm, .cons f t rest => by
      have iht := assertPODImpl_empty_iff t
      have ihr := assertPODFields_empty_iff nm rest
      by_cases ht : assertPODImpl t = ""
      · simp [assertPODFields, ht, fieldsContainPointersSpec, iht.mp ht, ihr]
      · have hct : containsPointersSpec t = true := by
          rcases Bool.eq_false_or_eq_true (containsPointersSpec t) with h | h
          · exact h
          · exact absurd (iht.mpr h) ht
        simp only [assertPODFields, ht, if_true, fieldsContainPointersSpec, hct,
          Bool.true_or, ne_eq, not_false_iff]
        constructor
        · intro h
          exact absurd h (append_ne_empty_right _ _ (length_ne_zero_of_ne_empty _ ht))
        · intro h; simp at h

end

/-- Padding a value to the next multiple of `a` yields a multiple of `a`. -/
theorem dvd_add_padding (B a : Nat) (h : 0 < a) :
    a ∣ B + (if B % a ≠ 0 then a - B % a else 0) := by
  by_cases hB : B % a = 0
  · simpa [hB] using Nat.dvd_of_mod_eq_zero hB
  · have hlt : B % a < a := Nat.mod_lt _ h
    have hdm : a * (B / a) + B % a = B := Nat.div_add_mod B a
    refine ⟨B / a + 1, ?_⟩
    rw [Nat.mul_add, Nat.mul_one]
    simp only [ne_eq, hB, not_false_iff, if_true]
    omega

/-- A successful `safeSlab.getWithAlignment` aligns the block *end*. -/
theorem pod_trailing_edge (s : safeSlab) (size align p : Nat) (s2 : safeSlab)
    (ha : 1 < align)
    (h : s.getWithAlignment size align = (some p, s2)) :
    align ∣ (p + size) := by
  have hpos : 0 < align := by omega
  have hne : ¬ align = 1 := by omega
  simp only [safeSlab.getWithAlignment, ne_eq, hne, not_false_iff, if_true] at h
  by_cases hm : (s.base + (s.offset + size)) % align = 0
  · simp only [hm, not_true, ite_false] at h
    split at h
    · simp at h
    · rw [Prod.mk.injEq] at h
      obtain ⟨hp, -⟩ := h
      rw [Option.some.injEq] at hp
      subst hp
      have heq : s.base + s.offset + 0 + size = s.base + (s.offset + size) := by omega
      rw [heq]
      exact Nat.dvd_of_mod_eq_zero hm
  · simp only [hm, not_false_iff, ite_true] at h
    split at h
    · simp at h
    · rw [Prod.mk.injEq] at h
      obtain ⟨hp, -⟩ := h
      rw [Option.some.injEq] at hp
      subst hp
      have key := dvd_add_padding (s.base + (s.offset + size)) align hpos
      simp only [ne_eq, hm, not_false_iff, ite_true] at key
      have heq : s.base + s.offset + (align - (s.base + (s.offset + size)) % align) + size
          = s.base + (s.offset + size) + (align - (s.base + (s.offset + size)) % align) := by
        omega
      rw [heq]
      exact key

/-- A successful `monotonicBuffer.alloc` aligns the block *start*. -/
theorem mono_start_aligned (b : monotonicBuffer) (size align fresh p : Nat)
    (b2 : monotonicBuffer) (ha : 1 < align)
    (h : b.alloc size align fresh = (some p, b2)) :
    align ∣ p := by
  have hpos : 0 < align := by omega
  have hne : ¬ align = 1 := by omega
  simp only [monotonicBuffer.alloc, monotonicBuffer.availableBytes, ne_eq, hne,
    not_false_iff, if_true] at h
  rcases hb : b.ptr with _ | base0 <;>
    simp only [hb, Option.isNone_none, Option.isNone_some, ite_true, ite_false,
      Bool.false_eq_true, Option.getD_some, Option.getD_none] at h
  · by_cases hm : (fresh + b.offset) % align = 0
    · simp only [hm, not_true, ite_false] at h
      split at h
      · simp at h
      · rw [Prod.mk.injEq] at h
        obtain ⟨hp, -⟩ := h
        rw [Option.some.injEq] at hp
        subst hp
        have heq : fresh + b.offset + 0 = fresh + b.offset := by omega
        rw [heq]
        exact Nat.dvd_of_mod_eq_zero hm
    · simp only [hm, not_false_iff, ite_true] at h
      split at h
      · simp at h
      · rw [Prod.mk.injEq] at h
        obtain ⟨hp, -⟩ := h
        rw [Option.some.injEq] at hp
        subst hp
        have key := dvd_add_padding (fresh + b.offset) align hpos
        simp only [ne_eq, hm, not_false_iff, ite_true] at key
        exact key
  · by_cases hm : (base0 + b.offset) % align = 0
    · simp only [hm, not_true, ite_false] at h
      split at h
      · simp at h
      · rw [Prod.mk.injEq] at h
        obtain ⟨hp, -⟩ := h
        rw [Option.some.injEq] at hp
        subst hp
        have heq : base0 + b.offset + 0 = base0 + b.offset := by omega
        rw [heq]
        exact Nat.dvd_of_mod_eq_zero hm
    · simp only [hm, not_false_iff, ite_true] at h
      split at h
      · simp at h
      · rw [Prod.mk.injEq] at h
        obtain ⟨hp, -⟩ := h
        rw [Option.some.injEq] at hp
        subst hp
        have key := dvd_add_padding (base0 + b.offset) align hpos
        simp only [ne_eq, hm, not_false_iff, ite_true] at key
        exact key

/-- Any monotonic-buffer reset leaves the cursor at 0. -/
theorem mono_buffer_reset_offset (b : monotonicBuffer) (r : Bool) :
    (b.reset r).offset = 0 := by
  rw [monotonicBuffer.reset]
  split
  · assumption
  · split
    · rfl
    · rfl

/-- Monotonic-buffer reset is idempotent. -/
theorem mono_buffer_reset_idem (b : monotonicBuffer) (r : Bool) :
    (b.reset r).reset r = b.reset r := by
  conv_lhs => rw [monotonicBuffer.reset]
  rw [if_pos (mono_buffer_reset_offset b r)]

/-- Monotonic-arena reset is idempotent. -/
theorem mono_arena_reset_idem (a : monotonicArena) : a.Reset.Reset = a.Reset := by
  simp only [monotonicArena.Reset, List.map_map]
  congr 1
  apply List.map_congr_left
  intro b _
  exact mono_buffer_reset_idem b a.releaseWhenReset

/-- Resetting a slab whose cursor is already 0 changes nothing. -/
theorem safeSlab_reset_of_zero (s : safeSlab) (h : s.offset = 0) : s.reset = (0, s) := by
  cases s with
  | mk base size offset mem =>
    simp only at h
    subst h
    rfl

/-- All slabs carry cursor 0 after `resetSlabs`. -/
theorem resetSlabs_offsets (l : List safeSlab) :
    ∀ s ∈ (resetSlabs l).2, s.offset = 0 := by
  induction l with
  | nil => intro s hs; simp [resetSlabs] at hs
  | cons x xs ih =>
    intro s hs
    simp only [resetSlabs, List.mem_cons] at hs
    rcases hs with h | h
    · subst h; rfl
    · exact ih s h

/-- `resetSlabs` does nothing on slabs whose cursors are all 0. -/
theorem resetSlabs_of_zero (l : List safeSlab) (h : ∀ s ∈ l, s.offset = 0) :
    resetSlabs l = (0, l) := by
  induction l with
  | nil => rfl
  | cons x xs ih =>
    have hx : x.offset = 0 := h x (by simp)
    simp only [resetSlabs, safeSlab_reset_of_zero x hx,
      ih (fun s hs => h s (by simp [hs]))]

/-- All slabs carry cursor 0 after a group reset. -/
theorem safeSlabGroup_reset_offsets (g : safeSlabGroup) :
    ∀ s ∈ (g.reset).slabs, s.offset = 0 := by
  intro s hs
  rw [safeSlabGroup.reset] at hs
  dsimp only at hs
  split at hs
  · exact resetSlabs_offsets g.slabs s (List.dropLast_subset _ hs)
  · exact resetSlabs_offsets g.slabs s hs

/-- A second group reset changes nothing once a single slab remains. -/
theorem safeSlabGroup_reset_idem_single (g : safeSlabGroup)
    (h : (g.reset).slabs.length = 1) : g.reset.reset = g.reset := by
  have hz := resetSlabs_of_zero (g.reset).slabs (safeSlabGroup_reset_offsets g)
  conv_lhs => rw [safeSlabGroup.reset]
  rw [hz]
  dsimp only
  rw [if_neg (by simp [h])]

/-- A second group reset drops exactly one further tail slab while more than
one slab (and positive total bytes) remain. -/
theorem safeSlabGroup_reset_shrinks (g : safeSlabGroup)
    (h1 : 1 < (g.reset).slabs.length) (h2 : 0 < (g.reset).totalBytes) :
    (g.reset.reset).slabs.length + 1 = (g.reset).slabs.length := by
  have hz := resetSlabs_of_zero (g.reset).slabs (safeSlabGroup_reset_offsets g)
  conv_lhs => rw [safeSlabGroup.reset]
  rw [hz]
  dsimp only
  rw [if_pos (by constructor <;> omega)]
  dsimp only
  rw [List.length_dropLast]
  omega

/-! ## Claim theorems -/

/-- **C1** (code bug).  The claim says the first allocate-typed request for a
non-POD type creates a typed slab group, records it in the arena map, and
returns a pointer into it.  On the code as written this cannot happen: the
constructor `MakeSafeArenaWithOptions` never initializes the `typedSlabs`
map, so the recording step `sa.typedSlabs[ty] = &newGroup` writes to a nil
map and the first non-POD allocation faults with the Go runtime panic
"assignment to entry in nil map". -/
theorem safeArena_first_typed_alloc_faults :
    isPOD (GoType.ptr GoType.int) = false
    ∧ (MakeSafeArenaWithOptions { InitialBytes := 8, InitialTypedSlots := 4 } 0).typedSlabs
        = none
    ∧ (MakeSafeArenaWithOptions { InitialBytes := 8, InitialTypedSlots := 4 } 0).getTyped
        (GoType.ptr GoType.int) 1 200 300
        = Except.error "assignment to entry in nil map" :=
  ⟨rfl, rfl, rfl⟩

/-- **C2** (code bug).  The claim (and the spec) say allocate-POD first
attempts `n × size` bytes.  The code attempts only `size` bytes, ignoring
`n`: requesting `n = 2` elements of `uint64` (8 bytes each) from a fresh
16-byte POD slab advances the cursor by 8, not 16, and the next allocation
is handed address 8 — inside the two-element region `[0, 16)` the first
caller believes it owns. -/
theorem getPOD_requests_single_element_size :
    goSize GoType.uint64 = 8
    ∧ podGroup16.getPOD GoType.uint64 2 100 = Except.ok (0, podGroup16a)
    ∧ podGroup16a.slabs.map (fun (s : safeSlab) => s.offset) = [8]
    ∧ podGroup16a.getPOD GoType.uint64 1 100
        = Except.ok (8, { podGroup16a with
            slabs := [{ base := 0, size := 16, offset := 16, mem := List.replicate 16 0 }] })
    ∧ (8 : Nat) < 0 + 2 * 8 :=
  ⟨rfl, rfl, rfl, rfl, by omega⟩

/-- **C3** (code bug).  The claim (and the spec) say make-slice performs a
capacity-sized allocation with a length-sized view.  The code passes the
*length* `n` to the allocator and then builds a `cap`-element view over it:
`Make` with `n = 1`, `cap = 4` on a fresh safe arena advances the POD cursor
by only 8 bytes (one `uint64`) while returning a slice whose capacity spans
32 bytes; `MakePOD` does the same. -/
theorem Make_requests_length_not_capacity :
    Make (some arena64) GoType.uint64 1 4 500 600
      = Except.ok ({ ptr := GoPtr.mem 0, len := 1, cap := 4 }, some arena64a)
    ∧ MakePOD (some arena64) GoType.uint64 1 4 600
      = Except.ok ({ ptr := GoPtr.mem 0, len := 1, cap := 4 }, some arena64a)
    ∧ arena64a.podSlabs.slabs.map (fun (s : safeSlab) => s.offset) = [8]
    ∧ (8 : Nat) < 4 * goSize GoType.uint64 :=
  ⟨rfl, rfl, rfl, by decide⟩

/-- **C4** (code bug).  The claim says that after a non-releasing reset every
previously handed-out byte reads as zero, for safe slabs and monotonic
buffers alike.  The safe slab does zero its used prefix, but the monotonic
buffer rewinds its cursor to 0 *before* calling `zeroOutBuffer`, which then
zeroes a window of length `offset = 0` — so the used bytes (here three 7s)
survive the reset. -/
theorem reset_zeroing_divergence :
    slab3used.reset
      = (3, { base := 0, size := 8, offset := 0, mem := [0, 0, 0, 0, 0, 0, 0, 0] })
    ∧ buf3used.reset false
      = { ptr := some 0, offset := 0, size := 8, mem := [7, 7, 7, 0, 0, 0, 0, 0] } :=
  ⟨rfl, rfl⟩

/-- **C5** (code bug).  The claim says that when the monotonic arena is
exhausted, `New` transparently falls back to the host allocator so the
caller always receives a usable pointer.  The internal allocation does
return null, but `New` casts that null straight to `*T`: on a one-buffer
16-byte arena the first two `New[int]` calls return arena addresses 0 and 8
and the third returns the nil pointer, not a host-heap pointer.  (The host
fallback exists only for a nil arena handle.) -/
theorem New_returns_nil_when_monotonic_exhausted :
    NewMono (some mono16) GoType.int [0] = (GoPtr.mem 0, some mono16a)
    ∧ NewMono (some mono16a) GoType.int [0] = (GoPtr.mem 8, some mono16b)
    ∧ NewMono (some mono16b) GoType.int [0] = (GoPtr.null, some mono16b)
    ∧ NewMono none GoType.int [] = (GoPtr.heap, none) :=
  ⟨rfl, rfl, rfl, rfl⟩

/-- **C6** (counterexample).  The claim asserts trailing-edge alignment for
monotonic-arena allocations as well: a successful `alloc` with size 2 and
alignment 4 from a buffer based at address 8 returns address 8, and
8 + 2 = 10 is not divisible by 4. -/
theorem mono_alloc_trailing_edge_counterexample :
    bufAt8.alloc 2 4 0
      = (some 8, { ptr := some 8, offset := 2, size := 16, mem := List.replicate 16 0 })
    ∧ (1 : Nat) < 4
    ∧ ¬ (4 : Nat) ∣ (8 + 2) :=
  ⟨rfl, by omega, by decide⟩

/-- **C6** (amended).  For every successful POD allocation with alignment
`a > 1`: on the safe arena's POD slab path the *trailing edge* is aligned
(`a ∣ returned + size`); on the monotonic arena's buffers the *start* is
aligned (`a ∣ returned`), and hence the trailing edge is aligned exactly
when `a` divides the requested size (as is the case for every request the
public entry points issue, since a Go type's size is a multiple of its
alignment). -/
theorem pod_allocation_alignment_amended :
    (∀ (s : safeSlab) (size align p : Nat) (s2 : safeSlab), 1 < align →
        s.getWithAlignment size align = (some p, s2) → align ∣ (p + size))
    ∧ (∀ (b : monotonicBuffer) (size align fresh p : Nat) (b2 : monotonicBuffer),
        1 < align → b.alloc size align fresh = (some p, b2) →
        align ∣ p ∧ (align ∣ size → align ∣ (p + size))) := by
  constructor
  · exact pod_trailing_edge
  · intro b size align fresh p b2 ha h
    have hp := mono_start_aligned b size align fresh p b2 ha h
    exact ⟨hp, fun hs => Nat.dvd_add hp hs⟩

/-- Witness for the amended C6 theorem: a safe-slab allocation of 4 bytes at
alignment 8 from a slab based at address 5 ends on an 8-byte boundary
(12 + 4 = 16), and a monotonic allocation at alignment 4 starts on a 4-byte
boundary (address 8). -/
theorem pod_allocation_alignment_amended_witness :
    (8 : Nat) ∣ (12 + 4) ∧ (4 : Nat) ∣ 8 := by
  constructor
  · exact pod_allocation_alignment_amended.1 slabAt5 4 8 12
      { base := 5, size := 16, offset := 11, mem := List.replicate 16 0 } (by omega) rfl
  · exact (pod_allocation_alignment_amended.2 bufAt8 2 4 0 8
      { ptr := some 8, offset := 2, size := 16, mem := List.replicate 16 0 }
      (by omega) rfl).1

/-- **C7** (code bug).  The claim (spec invariant 3, and the source comment
on `firstWithFreeSpace`: "Index of the first slab that hasn't become full")
says every slab before first-live-index seems full.  Reachable
counter-trace from `MakeSafeArenaWithOptions` with 8 initial bytes: two
`uint64` allocations fill the initial slab, swap it below
`firstWithFreeSpace = 1`, and grow a 16-byte slab; `reset` then rewinds
every cursor but leaves `firstWithFreeSpace` at 1, so the empty initial
slab sits before the first-live-index without seeming full (and is skipped
by all future allocations). -/
theorem reset_breaks_firstWithFreeSpace_invariant :
    arena8.podSlabs = group8start
    ∧ group8start.getPOD GoType.uint64 1 16 = Except.ok (0, group8a)
    ∧ group8a.getPOD GoType.uint64 1 16 = Except.ok (16, group8b)
    ∧ group8b.reset = group8r
    ∧ group8r.firstWithFreeSpace = 1
    ∧ (group8r.slabs.headD default).offset = 0
    ∧ (group8r.slabs.headD default).seemsFull = false :=
  ⟨rfl, rfl, rfl, rfl, rfl, rfl, rfl⟩

/-- **C8** (counterexample).  Reset is not idempotent on a safe arena.
Reachable trace: after two `uint64` allocations from an arena with 8
initial POD bytes the POD group holds two slabs, both well used.  The first
`Reset` rewinds both slabs and, utilization being high, drops nothing; the
second `Reset` sees a zero high-water mark and drops the tail slab, so the
states differ. -/
theorem safeArena_reset_not_idempotent :
    arena8.getTyped GoType.uint64 1 0 16 = Except.ok (0, arena8a)
    ∧ arena8a.getTyped GoType.uint64 1 0 16 = Except.ok (16, arena8b)
    ∧ arena8b.Reset.Reset ≠ arena8b.Reset := by
  refine ⟨rfl, rfl, ?_⟩
  decide

/-- **C8** (amended).  Reset is idempotent for monotonic arenas.  For a safe
slab group it is idempotent only once a single slab remains after a reset;
while more than one slab (with positive total bytes) remains, every further
reset drops exactly one tail slab — the spec's own "gradual shrink". -/
theorem reset_idempotence_amended :
    (∀ a : monotonicArena, a.Reset.Reset = a.Reset)
    ∧ (∀ g : safeSlabGroup, (g.reset).slabs.length = 1 → g.reset.reset = g.reset)
    ∧ (∀ g : safeSlabGroup, 1 < (g.reset).slabs.length → 0 < (g.reset).totalBytes →
        (g.reset.reset).slabs.length + 1 = (g.reset).slabs.length) :=
  ⟨mono_arena_reset_idem, safeSlabGroup_reset_idem_single, safeSlabGroup_reset_shrinks⟩

/-- Witness for the amended C8 theorem at concrete states: a monotonic arena
after one allocation, a one-slab POD group, and the two-slab group from the
C8 trace. -/
theorem reset_idempotence_amended_witness :
    mono16a.Reset.Reset = mono16a.Reset
    ∧ podGroup16a.reset.reset = podGroup16a.reset
    ∧ (group8b.reset.reset).slabs.length + 1 = (group8b.reset).slabs.length :=
  ⟨reset_idempotence_amended.1 mono16a,
   reset_idempotence_amended.2.1 podGroup16a (by decide),
   reset_idempotence_amended.2.2 group8b (by decide) (by decide)⟩

/-- **C9** (confirmed).  `AssertPlainOldData` faults exactly on types with a
pointer-bearing reachable subfield, and the message follows the stated
rules: pointerful leaf kinds produce `type <T> contains pointers` (with
`<T>` rendered by `%T` of the zero value — `<nil>` for interfaces), array
elements prefix `array element `, and struct fields — unexported ones
included — prefix `struct <T> field "<name>": `, recursing to the first
offending field; pointer-free primitives and arrays/structs of them pass. -/
theorem assertPlainOldData_spec :
    (∀ ty, AssertPlainOldData ty = Except.ok () ↔ containsPointersSpec ty = false)
    ∧ (∀ ty, containsPointersSpec ty = true →
        AssertPlainOldData ty = Except.error (assertPODImpl ty))
    ∧ (∀ e, assertPODImpl (GoType.slice e)
        = "type " ++ typeFmtName (GoType.slice e) ++ " contains pointers")
    ∧ assertPODImpl GoType.string = "type string contains pointers"
    ∧ assertPODImpl GoType.interface = "type <nil> contains pointers"
    ∧ (∀ e, assertPODImpl (GoType.chan e)
        = "type " ++ typeFmtName (GoType.chan e) ++ " contains pointers")
    ∧ assertPODImpl GoType.func = "type func() contains pointers"
    ∧ (∀ k v, assertPODImpl (GoType.map k v)
        = "type " ++ typeFmtName (GoType.map k v) ++ " contains pointers")
    ∧ (∀ e, assertPODImpl (GoType.ptr e)
        = "type " ++ typeFmtName (GoType.ptr e) ++ " contains pointers")
    ∧ assertPODImpl GoType.rawPointer = "type unsafe.Pointer contains pointers"
    ∧ (∀ n e, containsPointersSpec e = true →
        assertPODImpl (GoType.array n e) = "array element " ++ assertPODImpl e)
    ∧ (∀ nm f t rest, containsPointersSpec t = true →
        assertPODImpl (GoType.structv nm (GoFields.cons f t rest))
          = "struct " ++ nm ++ " field \"" ++ f ++ "\": " ++ assertPODImpl t)
    ∧ (∀ nm f t rest, containsPointersSpec t = false →
        assertPODImpl (GoType.structv nm (GoFields.cons f t rest))
          = assertPODImpl (GoType.structv nm rest)) := by
  refine ⟨?_, ?_, fun e => rfl, rfl, rfl, fun e => rfl, rfl, fun k v => rfl,
    fun e => rfl, rfl, ?_, ?_, ?_⟩
  · intro ty
    constructor
    · intro h
      by_cases hp : assertPODImpl ty = ""
      · exact (assertPODImpl_empty_iff ty).mp hp
      · simp [AssertPlainOldData, hp] at h
    · intro h
      have he := (assertPODImpl_empty_iff ty).mpr h
      simp [AssertPlainOldData, he]
  · intro ty h
    have hne : assertPODImpl ty ≠ "" := fun he => by
      simp [(assertPODImpl_empty_iff ty).mp he] at h
    simp [AssertPlainOldData, hne]
  · intro n e h
    have hp : isPOD e = false := by
      rcases Bool.eq_false_or_eq_true (isPOD e) with h1 | h1
      · exact absurd (isPOD_no_pointers e h1) (by simp [h])
      · exact h1
    have hne : assertPODImpl e ≠ "" := fun he => by
      simp [(assertPODImpl_empty_iff e).mp he] at h
    simp only [assertPODImpl, isPOD, hp, Bool.false_eq_true, if_false, ne_eq, hne,
      not_false_iff, if_true]
  · intro nm f t rest h
    have hne : assertPODImpl t ≠ "" := fun he => by
      simp [(assertPODImpl_empty_iff t).mp he] at h
    simp only [assertPODImpl, isPOD, Bool.false_eq_true, if_false, assertPODFields,
      ne_eq, hne, not_false_iff, if_true]
  · intro nm f t rest h
    have he : assertPODImpl t = "" := (assertPODImpl_empty_iff t).mpr h
    simp only [assertPODImpl, isPOD, Bool.false_eq_true, if_false, assertPODFields,
      he, ne_eq, not_true, if_false, ite_false]

/-- Witness for the C9 theorem at the concrete types of the package's own
test file: `[3]bool` passes, `string` faults with its exact message, and the
array and struct prefix rules fire. -/
theorem assertPlainOldData_spec_witness :
    AssertPlainOldData (GoType.array 3 GoType.bool) = Except.ok ()
    ∧ AssertPlainOldData GoType.string = Except.error "type string contains pointers"
    ∧ assertPODImpl (GoType.array 3 (GoType.chan GoType.int))
        = "array element " ++ assertPODImpl (GoType.chan GoType.int)
    ∧ assertPODImpl (GoType.structv "nuke_test.Foo[string,int]"
          (GoFields.cons "Public" GoType.string (GoFields.cons "private" GoType.int GoFields.nil)))
        = "struct nuke_test.Foo[string,int] field \"Public\": " ++ assertPODImpl GoType.string :=
  ⟨(assertPlainOldData_spec.1 (GoType.array 3 GoType.bool)).mpr (by decide),
   assertPlainOldData_spec.2.1 GoType.string (by decide),
   assertPlainOldData_spec.2.2.2.2.2.2.2.2.2.2.1 3 (GoType.chan GoType.int) (by decide),
   assertPlainOldData_spec.2.2.2.2.2.2.2.2.2.2.2.1 "nuke_test.Foo[string,int]" "Public"
     GoType.string (GoFields.cons "private" GoType.int GoFields.nil) (by decide)⟩

/-- **C10** (confirmed).  When a monotonic buffer's cursor is 0, reset
returns immediately and leaves the buffer entirely unchanged, release flag
or not — in particular backing storage materialized by a failed allocation
attempt is kept. -/
theorem monotonicBuffer_reset_noop_at_offset_zero (b : monotonicBuffer)
    (release : Bool) (h : b.offset = 0) : b.reset release = b := by
  rw [monotonicBuffer.reset, if_pos h]

/-- Witness for C10: a failed 8-byte request against a fresh 4-byte buffer
materializes storage at address 16 without moving the cursor, and a
releasing reset then leaves that state fully intact. -/
theorem monotonicBuffer_reset_noop_at_offset_zero_witness :
    ((newMonotonicBuffer 4).alloc 8 1 16).1 = none
    ∧ ((newMonotonicBuffer 4).alloc 8 1 16).2
        = { ptr := some 16, offset := 0, size := 4, mem := [0, 0, 0, 0] }
    ∧ ((newMonotonicBuffer 4).alloc 8 1 16).2.reset true
        = ((newMonotonicBuffer 4).alloc 8 1 16).2 :=
  ⟨rfl, rfl, monotonicBuffer_reset_noop_at_offset_zero _ true rfl⟩
